import Mathlib

/-
Verification of the sos task-tracking core (src/sos/tasks.py).

The development embeds, at the level the source itself works at:
  * the binary task-record file: a 224-byte header (struct format
    "!2i 128s 8d 6i", read and written through the TaskHeader namedtuple)
    followed by variable-length compressed sections, modelled as a
    structured header plus the byte list of everything after the header;
  * the writer operations save / update / _reset / add_outputs /
    add_result / add_signature and the section accessors;
  * the tags field accessors, which bypass the namedtuple and read/write
    raw bytes at offset 8, modelled byte-exactly (including Python's
    str.ljust, which pads by characters, and UTF-8 encoding);
  * the MasterTaskParams.push aggregation;
  * the check_task liveness probe over a static filesystem snapshot
    (no concurrent mutation, so its task_changed() re-stat is False and
    its sleep is a no-op; the claims checked here concern branches that
    return before any concurrent-change handling).

Compression (lzma) and serialization (pickle) are external libraries:
operations take the compressed block as an argument and accessors take
the decoder as a function argument, with decode failure as Option.none.
Timestamps are Python floats used only for equality / zero tests here;
they are modelled as Nat, packed into their 8-byte header slots by an
injective big-endian encoding standing in for the IEEE-754 byte image.
-/

/-! ### Byte-level file primitives -/

/-- Overwrite the bytes of `l` at offset `off` with `data`, zero-filling any
gap and extending the file as needed (POSIX seek-and-write semantics; a
zero-length write does not extend the file). -/
def writeAt (off : Nat) (data l : List Nat) : List Nat :=
  if data = [] then l
  else
    let l2 := if l.length < off then l ++ List.replicate (off - l.length) 0 else l
    l2.take off ++ data ++ l2.drop (off + data.length)

/-- File truncation to length `n`: shortens, or zero-extends (ftruncate). -/
def truncBytes (l : List Nat) (n : Nat) : List Nat :=
  if n ≤ l.length then l.take n else l ++ List.replicate (n - l.length) 0

/-- Big-endian encoding of `n` into `k` bytes (struct "!i" / fixed-width). -/
def beBytes : Nat → Nat → List Nat
  | 0, _ => []
  | k + 1, n => beBytes k (n / 256) ++ [n % 256]

/-- Big-endian decoding of a byte list. -/
def deBE (l : List Nat) : Nat :=
  l.foldl (fun a b => a * 256 + b) 0

/-- The struct "128s" field conversion: truncate to 128 bytes or pad with
zero bytes. -/
def fit128 (bs : List Nat) : List Nat :=
  bs.take 128 ++ List.replicate (128 - bs.length) 0

/-- Read `n` bytes starting at byte offset `off`. -/
def sliceBytes (l : List Nat) (off n : Nat) : List Nat :=
  (l.drop off).take n

/-! ### UTF-8 (Python str.encode / bytes.decode) -/

/-- UTF-8 encoding of one character. -/
def utf8EncodeChar (c : Char) : List Nat :=
  let n := c.toNat
  if n < 0x80 then [n]
  else if n < 0x800 then [0xC0 + n / 0x40, 0x80 + n % 0x40]
  else if n < 0x10000 then
    [0xE0 + n / 0x1000, 0x80 + n / 0x40 % 0x40, 0x80 + n % 0x40]
  else
    [0xF0 + n / 0x40000, 0x80 + n / 0x1000 % 0x40, 0x80 + n / 0x40 % 0x40,
     0x80 + n % 0x40]

/-- UTF-8 encoding of a character list (Python str.encode()). -/
def utf8Encode (cs : List Char) : List Nat :=
  (cs.map utf8EncodeChar).flatten

/-- Is `b` a UTF-8 continuation byte? -/
def utf8ContB (b : Nat) : Bool := 0x80 ≤ b && b < 0xC0

/-- One step of strict UTF-8 decoding: the first scalar value and the
remaining bytes, or none on invalid input (stray/overlong/surrogate/
out-of-range forms, as Python bytes.decode() rejects). -/
def utf8Step : List Nat → Option (Char × List Nat)
  | [] => none
  | b :: bs =>
    if b < 0x80 then some (Char.ofNat b, bs)
    else if b < 0xC2 then none
    else if b < 0xE0 then
      match bs with
      | b1 :: bs2 =>
        if utf8ContB b1 then
          some (Char.ofNat ((b - 0xC0) * 0x40 + (b1 - 0x80)), bs2)
        else none
      | [] => none
    else if b < 0xF0 then
      match bs with
      | b1 :: b2 :: bs3 =>
        if utf8ContB b1 && utf8ContB b2 && (b != 0xE0 || decide (0xA0 ≤ b1)) &&
            (b != 0xED || decide (b1 < 0xA0)) then
          some (Char.ofNat ((b - 0xE0) * 0x1000 + (b1 - 0x80) * 0x40 + (b2 - 0x80)), bs3)
        else none
      | _ => none
    else if b < 0xF5 then
      match bs with
      | b1 :: b2 :: b3 :: bs4 =>
        if utf8ContB b1 && utf8ContB b2 && utf8ContB b3 &&
            (b != 0xF0 || decide (0x90 ≤ b1)) && (b != 0xF4 || decide (b1 < 0x90)) then
          some (Char.ofNat ((b - 0xF0) * 0x40000 + (b1 - 0x80) * 0x1000 +
            (b2 - 0x80) * 0x40 + (b3 - 0x80)), bs4)
        else none
      | _ => none
    else none

/-- Iterated decoding; the fuel only bounds recursion depth and a byte
list's own length is always enough fuel, since every step consumes at
least one byte. -/
def utf8DecodeAux : Nat → List Nat → Option (List Char)
  | _, [] => some []
  | 0, _ :: _ => none
  | fuel + 1, b :: bs =>
    match utf8Step (b :: bs) with
    | some (c, r) => (utf8DecodeAux fuel r).map (fun cs => c :: cs)
    | none => none

/-- Strict UTF-8 decoding (Python bytes.decode(), which raises on invalid
input, modelled as none). -/
def utf8Decode (l : List Nat) : Option (List Char) := utf8DecodeAux l.length l

/-! ### Python str helpers used by the tags field -/

/-- The whitespace characters stripped by Python str.strip(). -/
def pySpace (c : Char) : Bool :=
  c == ' ' || c == '\t' || c == '\n' || c == '\r' || c == '\x0b' || c == '\x0c'

/-- Python str.strip(): drop whitespace from both ends. -/
def pyStrip (cs : List Char) : List Char :=
  ((cs.dropWhile pySpace).reverse.dropWhile pySpace).reverse

/-- Lexicographic code-point comparison of character lists (Python str
comparison). -/
def charListLe : List Char → List Char → Bool
  | [], _ => true
  | _ :: _, [] => false
  | a :: as, b :: bs =>
    if a.toNat < b.toNat then true
    else if b.toNat < a.toNat then false
    else charListLe as bs

/-- Python sorted() on strings: lexicographic by code points. -/
def sortStrings (l : List String) : List String :=
  l.insertionSort (fun a b => charListLe a.data b.data = true)

/-- Python ' '.join on character lists. -/
def joinWithSpace : List (List Char) → List Char
  | [] => []
  | [x] => x
  | x :: xs => x ++ ' ' :: joinWithSpace xs

/-- Characters of ' '.join(sorted(tags)). -/
def joinTags (tg : List String) : List Char :=
  joinWithSpace ((sortStrings tg).map String.data)

/-- Python str.ljust(n): pad on the right with spaces to `n` CHARACTERS
(not bytes). -/
def ljustChars (cs : List Char) (n : Nat) : List Char :=
  cs ++ List.replicate (n - cs.length) ' '

/-- The byte string ' '.join(sorted(tags)).ljust(128).encode() written into
the tags field by save, _set_tags and add_tags. -/
def tagFieldBytes (tg : List String) : List Nat :=
  utf8Encode (ljustChars (joinTags tg) 128)

/-! ### The task-file header (namedtuple TaskHeader, "!2i 128s 8d 6i") -/

/-- TaskFile.TaskHeader: version, status, the raw 128-byte tags field, eight
timestamps and six section sizes, in the order of the struct format
"!2i 128s 8d 6i".  Integer fields are big-endian on disk. -/
structure TaskHeader where
  version : Nat
  status : Nat
  tags : List Nat
  new_time : Nat
  pending_time : Nat
  submitted_time : Nat
  running_time : Nat
  aborted_time : Nat
  failed_time : Nat
  completed_time : Nat
  last_modified : Nat
  params_size : Nat
  pulse_size : Nat
  stdout_size : Nat
  stderr_size : Nat
  result_size : Nat
  signature_size : Nat
deriving DecidableEq

/-- struct.calcsize("!2i 128s 8d 6i") = 4+4+128+64+24. -/
def headerSize : Nat := 224

/-- struct.pack("!2i 128s 8d 6i", *header): the 224 header bytes. -/
def packHeader (h : TaskHeader) : List Nat :=
  beBytes 4 h.version ++ beBytes 4 h.status ++ fit128 h.tags ++
  beBytes 8 h.new_time ++ beBytes 8 h.pending_time ++ beBytes 8 h.submitted_time ++
  beBytes 8 h.running_time ++ beBytes 8 h.aborted_time ++ beBytes 8 h.failed_time ++
  beBytes 8 h.completed_time ++ beBytes 8 h.last_modified ++
  beBytes 4 h.params_size ++ beBytes 4 h.pulse_size ++ beBytes 4 h.stdout_size ++
  beBytes 4 h.stderr_size ++ beBytes 4 h.result_size ++ beBytes 4 h.signature_size

/-- struct.unpack("!2i 128s 8d 6i", bytes): the fields are read off the
byte string in order, each consuming its fixed width. -/
def unpackHeader (bs : List Nat) : TaskHeader :=
  let r1 := bs.drop 4
  let r2 := r1.drop 4
  let r3 := r2.drop 128
  let r4 := r3.drop 8
  let r5 := r4.drop 8
  let r6 := r5.drop 8
  let r7 := r6.drop 8
  let r8 := r7.drop 8
  let r9 := r8.drop 8
  let r10 := r9.drop 8
  let r11 := r10.drop 8
  let r12 := r11.drop 4
  let r13 := r12.drop 4
  let r14 := r13.drop 4
  let r15 := r14.drop 4
  let r16 := r15.drop 4
  { version := deBE (bs.take 4)
    status := deBE (r1.take 4)
    tags := r2.take 128
    new_time := deBE (r3.take 8)
    pending_time := deBE (r4.take 8)
    submitted_time := deBE (r5.take 8)
    running_time := deBE (r6.take 8)
    aborted_time := deBE (r7.take 8)
    failed_time := deBE (r8.take 8)
    completed_time := deBE (r9.take 8)
    last_modified := deBE (r10.take 8)
    params_size := deBE (r11.take 4)
    pulse_size := deBE (r12.take 4)
    stdout_size := deBE (r13.take 4)
    stderr_size := deBE (r14.take 4)
    result_size := deBE (r15.take 4)
    signature_size := deBE (r16.take 4) }

/-- Well-formedness of an on-disk header: every field fits its slot and the
tags field is exactly the 128 raw bytes read back by _read_header. -/
def TaskHeader.WF (h : TaskHeader) : Prop :=
  h.version < 2 ^ 32 ∧ h.status < 2 ^ 32 ∧
  h.tags.length = 128 ∧ (∀ b ∈ h.tags, b < 256) ∧
  h.new_time < 2 ^ 64 ∧ h.pending_time < 2 ^ 64 ∧ h.submitted_time < 2 ^ 64 ∧
  h.running_time < 2 ^ 64 ∧ h.aborted_time < 2 ^ 64 ∧ h.failed_time < 2 ^ 64 ∧
  h.completed_time < 2 ^ 64 ∧ h.last_modified < 2 ^ 64 ∧
  h.params_size < 2 ^ 32 ∧ h.pulse_size < 2 ^ 32 ∧ h.stdout_size < 2 ^ 32 ∧
  h.stderr_size < 2 ^ 32 ∧ h.result_size < 2 ^ 32 ∧ h.signature_size < 2 ^ 32

instance (h : TaskHeader) : Decidable h.WF := by
  unfold TaskHeader.WF; infer_instance

/-! ### The task file: header plus section bytes -/

/-- One {id}.task file: the header (first 224 bytes, as the namedtuple the
source reads and writes through _read_header/_write_header) and the body
bytes after it. -/
structure TFile where
  header : TaskHeader
  body : List Nat
deriving DecidableEq

/-- Total file length in bytes. -/
def fileLength (f : TFile) : Nat := headerSize + f.body.length

/-- The sum of the six section sizes recorded in the header. -/
def sizeSum (h : TaskHeader) : Nat :=
  h.params_size + h.pulse_size + h.stdout_size + h.stderr_size +
  h.result_size + h.signature_size

/-- The raw bytes of the whole file. -/
def fileBytes (f : TFile) : List Nat := packHeader f.header ++ f.body

/-- Read `n` bytes of the section area starting at body offset `off`
(file offset headerSize + off). -/
def sectionBytes (f : TFile) (off n : Nat) : List Nat :=
  (f.body.drop off).take n

/-! ### TaskParams (the pickled parameter object) -/

/-- A value in the _runtime resource mapping: a string (e.g. '1h', a path,
a name) or an integer (e.g. cores). -/
inductive PVal where
  | s : String → PVal
  | n : Nat → PVal
deriving DecidableEq

/-- Python str(v) of a runtime value, as used by f-strings in push. -/
def PVal.str : PVal → String
  | .s v => v
  | .n k => toString k

/-- Lookup in an association-list dictionary (dict.get(key, None); a key
stored with value None and an absent key are both modelled as none, which
is also how push reads them). -/
def rget (d : List (String × PVal)) (k : String) : Option PVal :=
  match d.find? (fun e => e.1 == k) with
  | some e => some e.2
  | none => none

/-- dict[key] = v. -/
def rset (d : List (String × PVal)) (k : String) (v : PVal) : List (String × PVal) :=
  if (d.find? (fun e => e.1 == k)).isSome then
    d.map (fun e => if e.1 == k then (k, v) else e)
  else d ++ [(k, v)]

/-- The parts of a task's sos_dict that tasks.py reads. -/
structure SosDict where
  runtime : List (String × PVal)
  input : List String
  output : List String
  depends : List String
  step_name : String
deriving DecidableEq

/-- TaskParams: the parameter object pickled into the params section.
`tags` is an Option because TaskFile.save deletes the tags attribute
from the object (del params.tags); none models the deleted attribute. -/
structure TaskParams where
  name : String
  global_def : String
  task : String
  sos_dict : SosDict
  tags : Option (List String)
deriving DecidableEq

/-! ### TaskFile operations -/

/-- The header written by TaskFile.save: version 1, status new (0), tags
sorted/joined/ljust(128)/encoded (then fitted to the 128s slot by
struct.pack), new_time = last_modified = now, all other timestamps and
section sizes 0 except the params size. -/
def saveHeader (tg : List String) (psize : Nat) (now : Nat) : TaskHeader :=
  { version := 1, status := 0, tags := fit128 (tagFieldBytes tg),
    new_time := now, pending_time := 0, submitted_time := 0, running_time := 0,
    aborted_time := 0, failed_time := 0, completed_time := 0, last_modified := now,
    params_size := psize, pulse_size := 0, stdout_size := 0, stderr_size := 0,
    result_size := 0, signature_size := 0 }

/-- TaskFile.save(params).  `file` is the current backing file if it exists
(save is a no-op then).  `ser` stands for lzma.compress(pickle.dumps(.)),
applied to the params object AFTER its tags attribute has been deleted.
Returns the new file state and the (mutated) params object; raising
AttributeError (tags already absent) is the error case. -/
def TaskFile.save (file : Option TFile) (p : TaskParams)
    (ser : TaskParams → List Nat) (now : Nat) :
    Except String (Option TFile × TaskParams) :=
  match file with
  | some f => .ok (some f, p)
  | none =>
    match p.tags with
    | none => .error "AttributeError: tags"
    | some tg =>
      let p2 : TaskParams := { p with tags := none }
      let pb := ser p2
      .ok (some ⟨saveHeader tg pb.length now, pb⟩, p2)

/-- TaskFile.update(params): reset the header to status pending (1) with
new_time = last_modified = now, zero every transition timestamp and every
section size except the new params size, write the new params block and
truncate the file to header + params. -/
def TaskFile.update (f : TFile) (pb : List Nat) (now : Nat) : TFile :=
  let h := { f.header with
    status := 1, new_time := now, pending_time := 0, submitted_time := 0,
    running_time := 0, aborted_time := 0, failed_time := 0, completed_time := 0,
    last_modified := now, params_size := pb.length, pulse_size := 0,
    stdout_size := 0, stderr_size := 0, result_size := 0, signature_size := 0 }
  ⟨h, truncBytes (writeAt 0 pb f.body) pb.length⟩

/-- TaskFile._reset / TaskFile.reset: like update's header reset but with
status new (0), keeping the params section and its recorded size, and
truncating the file to header + params. -/
def TaskFile.resetF (f : TFile) (now : Nat) : TFile :=
  let h := { f.header with
    status := 0, new_time := now, pending_time := 0, submitted_time := 0,
    running_time := 0, aborted_time := 0, failed_time := 0, completed_time := 0,
    last_modified := now, pulse_size := 0, stdout_size := 0, stderr_size := 0,
    result_size := 0, signature_size := 0 }
  ⟨h, truncBytes f.body h.params_size⟩

/-- TaskFile.add_outputs(): `pulse`, `stdout`, `stderr` are the compressed
companion-file contents ([] when the companion file is absent).  The
source reads the header, calls _reset(fh) when a result is attached (but
keeps using the header read BEFORE the reset, discarding _reset's return
value), sets the three section sizes in that stale header, writes it and
appends the three blocks after the params section. -/
def TaskFile.add_outputs (f : TFile) (pulse stdout stderr : List Nat)
    (now : Nat) : TFile :=
  let h0 := f.header
  let f1 := if h0.result_size ≠ 0 then TaskFile.resetF f now else f
  let h := { h0 with pulse_size := pulse.length,
                     stdout_size := stdout.length,
                     stderr_size := stderr.length }
  ⟨h, writeAt h.params_size (pulse ++ stdout ++ stderr) f1.body⟩

/-- TaskFile.add_result(result): set result_size and write the compressed
result block at header + params + pulse + stdout + stderr. -/
def TaskFile.add_result (f : TFile) (rb : List Nat) : TFile :=
  let h := { f.header with result_size := rb.length }
  ⟨h, writeAt (h.params_size + h.pulse_size + h.stdout_size + h.stderr_size)
      rb f.body⟩

/-- TaskFile.add_signature(signature): set signature_size and write the
compressed block at header + params + pulse + stdout + stderr + result. -/
def TaskFile.add_signature (f : TFile) (sb : List Nat) : TFile :=
  let h := { f.header with signature_size := sb.length }
  ⟨h, writeAt (h.params_size + h.pulse_size + h.stdout_size + h.stderr_size +
      h.result_size) sb f.body⟩

/-- TaskFile._set_status: the recognized states each set their own
timestamp plus last_modified; any other value raises RuntimeError before
the header is written (TaskStatus values: new 0, pending 1, submitted 2,
running 3, aborted 4, failed 5, completed 6). -/
def TaskFile.setStatus (f : TFile) (s : String) (now : Nat) : Except String TFile :=
  if s = "pending" then
    .ok ⟨{ f.header with status := 1, pending_time := now, last_modified := now }, f.body⟩
  else if s = "submitted" then
    .ok ⟨{ f.header with status := 2, submitted_time := now, last_modified := now }, f.body⟩
  else if s = "running" then
    .ok ⟨{ f.header with status := 3, running_time := now, last_modified := now }, f.body⟩
  else if s = "failed" then
    .ok ⟨{ f.header with status := 5, failed_time := now, last_modified := now }, f.body⟩
  else if s = "aborted" then
    .ok ⟨{ f.header with status := 4, aborted_time := now, last_modified := now }, f.body⟩
  else if s = "completed" then
    .ok ⟨{ f.header with status := 6, completed_time := now, last_modified := now }, f.body⟩
  else .error ("Unrecognized task status: " ++ s)

/-- TaskFile._get_params: empty dict if the size is 0, otherwise decompress
and unpickle WITHOUT any try/except: a decode failure propagates. -/
def TaskFile.getParams {α : Type} (dec : List Nat → Option α) (emptyDict : α)
    (f : TFile) : Except String α :=
  if f.header.params_size = 0 then .ok emptyDict
  else
    match dec (sectionBytes f 0 f.header.params_size) with
    | some v => .ok v
    | none => .error "lzma.LZMAError in params"

/-- TaskFile._get_pulse: decode failure is caught, a warning logged and ''
returned. -/
def TaskFile.getPulse (dec : List Nat → Option String) (f : TFile) :
    Except String String :=
  if f.header.pulse_size = 0 then .ok ""
  else
    match dec (sectionBytes f f.header.params_size f.header.pulse_size) with
    | some v => .ok v
    | none => .ok ""

/-- TaskFile._get_stdout: decode failure is caught and '' returned. -/
def TaskFile.getStdout (dec : List Nat → Option String) (f : TFile) :
    Except String String :=
  if f.header.stdout_size = 0 then .ok ""
  else
    match dec (sectionBytes f (f.header.params_size + f.header.pulse_size)
        f.header.stdout_size) with
    | some v => .ok v
    | none => .ok ""

/-- TaskFile._get_stderr: decode failure is caught and '' returned. -/
def TaskFile.getStderr (dec : List Nat → Option String) (f : TFile) :
    Except String String :=
  if f.header.stderr_size = 0 then .ok ""
  else
    match dec (sectionBytes f
        (f.header.params_size + f.header.pulse_size + f.header.stdout_size)
        f.header.stderr_size) with
    | some v => .ok v
    | none => .ok ""

/-- TaskFile._get_result: empty dict if the size is 0; decode failure is
caught and the sentinel {'ret_code': 1} returned. -/
def TaskFile.getResult (dec : List Nat → Option (List (String × Nat)))
    (f : TFile) : Except String (List (String × Nat)) :=
  if f.header.result_size = 0 then .ok []
  else
    match dec (sectionBytes f
        (f.header.params_size + f.header.pulse_size + f.header.stdout_size +
         f.header.stderr_size) f.header.result_size) with
    | some v => .ok v
    | none => .ok [("ret_code", 1)]

/-- TaskFile._get_signature: empty dict if the size is 0; decode failure is
caught and {'ret_code': 1} returned (the same sentinel as result). -/
def TaskFile.getSignature (dec : List Nat → Option (List (String × Nat)))
    (f : TFile) : Except String (List (String × Nat)) :=
  if f.header.signature_size = 0 then .ok []
  else
    match dec (sectionBytes f
        (f.header.params_size + f.header.pulse_size + f.header.stdout_size +
         f.header.stderr_size + f.header.result_size) f.header.signature_size) with
    | some v => .ok v
    | none => .ok [("ret_code", 1)]

/-- TaskFile._get_tags: read the 128 raw bytes at file offset 8, decode
(strict UTF-8, may raise) and strip. -/
def TaskFile.getTags (f : TFile) : Option String :=
  (utf8Decode (sliceBytes (fileBytes f) 8 128)).map
    (fun cs => String.mk (pyStrip cs))

/-- TaskFile._set_tags: seek to file offset 8 and write
' '.join(sorted(tags)).ljust(128).encode() — a raw write whose length is
the UTF-8 byte count of the 128-CHARACTER padded string, so it can exceed
128 bytes and run past the tags field.  The resulting on-disk bytes are
re-read into header and body. -/
def TaskFile.setTags (f : TFile) (tg : List String) : TFile :=
  let bs := writeAt 8 (tagFieldBytes tg) (fileBytes f)
  ⟨unpackHeader (bs.take headerSize), bs.drop headerSize⟩

/-! ### Concrete task files used for evaluations -/

/-- A well-formed example record: params section of 3 bytes and five
further 1-byte sections. -/
def exHeader : TaskHeader :=
  { version := 1, status := 6, tags := List.replicate 128 32,
    new_time := 100, pending_time := 0, submitted_time := 0, running_time := 0,
    aborted_time := 0, failed_time := 0, completed_time := 0, last_modified := 100,
    params_size := 3, pulse_size := 1, stdout_size := 1, stderr_size := 1,
    result_size := 1, signature_size := 1 }

/-- A well-formed example file matching exHeader. -/
def exFile : TFile := ⟨exHeader, [1, 2, 3, 4, 5, 6, 7, 8]⟩

/-- A fresh params object. -/
def exParams : TaskParams :=
  { name := "t", global_def := "", task := "run: echo",
    sos_dict := { runtime := [], input := [], output := [], depends := [],
                  step_name := "s" },
    tags := some ["a"] }

/-- The record created by save for exParams with a 3-byte params block. -/
def c1file0 : TFile :=
  match TaskFile.save none exParams (fun _ => [1, 2, 3]) 0 with
  | .ok (some f, _) => f
  | _ => ⟨saveHeader [] 0 0, []⟩

/-- c1file0 after add_result with a 2-byte result block, then add_outputs
with no companion files present (the sequence the header/offset claim
quantifies over). -/
def c1file2 : TFile :=
  TaskFile.add_outputs (TaskFile.add_result c1file0 [9, 9]) [] [] [] 5

/-! ### sos.utils helpers used by MasterTaskParams.push

The module sos/utils.py is not part of this repository snapshot (only
sos/tasks.py and sos/signature_store.py are); the three helpers push needs
are modelled from the spec. -/

/-- Digits of a numeral string. -/
def digitsToNat : List Char → Option Nat
  | [] => none
  | cs =>
    if cs.all Char.isDigit then
      some (cs.foldl (fun a c => a * 10 + (c.toNat - 48)) 0)
    else none

/-- Modelled from the spec: expand_time (sos.utils, not under src/) parses a
walltime specification into seconds; e.g. '1h' is 3600 seconds, and plain
integers are already seconds. -/
def expand_time (v : PVal) : Option Nat :=
  match v with
  | .n k => some k
  | .s str =>
    match str.data.getLast? with
    | none => none
    | some u =>
      if u = 'd' then (digitsToNat str.data.dropLast).map (· * 86400)
      else if u = 'h' then (digitsToNat str.data.dropLast).map (· * 3600)
      else if u = 'm' then (digitsToNat str.data.dropLast).map (· * 60)
      else if u = 's' then digitsToNat str.data.dropLast
      else digitsToNat str.data

/-- Modelled from the spec: expand_size (sos.utils, not under src/) parses a
memory size into bytes; '100M' is the fixed 100MB master overhead. -/
def expand_size (v : PVal) : Option Nat :=
  match v with
  | .n k => some k
  | .s str =>
    match str.data.getLast? with
    | none => none
    | some u =>
      if u = 'K' then (digitsToNat str.data.dropLast).map (· * 1024)
      else if u = 'M' then (digitsToNat str.data.dropLast).map (· * (1024 * 1024))
      else if u = 'G' then (digitsToNat str.data.dropLast).map (· * (1024 * 1024 * 1024))
      else digitsToNat str.data

/-- Two-digit zero padding. -/
def pad2 (n : Nat) : String :=
  if n < 10 then "0" ++ toString n else toString n

/-- Modelled from the spec: format_HHMMSS (sos.utils, not under src/)
renders a number of seconds as an H:M:S walltime string. -/
def format_HHMMSS (secs : Nat) : String :=
  pad2 (secs / 3600) ++ ":" ++ pad2 (secs % 3600 / 60) ++ ":" ++ pad2 (secs % 60)

/-! ### MasterTaskParams -/

/-- MasterTaskParams: the batch of sub-tasks sharing one submission.
raw_dict (a deep copy of sos_dict taken after every push) is not carried
separately.  `tags` is an Option for the same reason as TaskParams.tags. -/
structure MasterTaskParams where
  ID : String
  name : String
  global_def : String
  task : String
  sos_dict : SosDict
  num_workers : Nat
  tags : Option (List String)
  task_stack : List (String × TaskParams)
deriving DecidableEq

/-- MasterTaskParams.__init__(num_workers). -/
def MasterTaskParams.init (num_workers : Nat) : MasterTaskParams :=
  { ID := "M_0", name := "M_0", global_def := "", task := "",
    sos_dict := { runtime := [], input := [], output := [], depends := [],
                  step_name := "" },
    num_workers := num_workers, tags := some [], task_stack := [] }

/-- The keys copied verbatim from the first pushed sub-task. -/
def firstPushKeys : List String :=
  ["walltime", "max_walltime", "cores", "max_cores", "mem", "max_mem",
   "map_vars", "name", "cur_dir", "home_dir", "verbosity", "sig_mode",
   "run_mode"]

/-- The identity keys every subsequent push must agree on. -/
def identityKeys : List String :=
  ["walltime", "max_walltime", "cores", "max_cores", "mem", "max_mem",
   "name", "cur_dir", "home_dir"]

/-- One iteration of push's per-key loop for a subsequent push: raise
ValueError when the first sub-task's value and the new sub-task's value
differ, otherwise merge walltime / mem / cores / name into the master's
_runtime using the nrow x ncol grid.  A type error while merging
(e.g. a string cores value) is Python's TypeError. -/
def mergeKey (first p : TaskParams) (nWorkers nStack : Nat) (nrow ncol : Nat)
    (rt : List (String × PVal)) (key : String) :
    Except String (List (String × PVal)) :=
  let val0 := rget first.sos_dict.runtime key
  let val := rget p.sos_dict.runtime key
  if val0 ≠ val then
    .error ("All tasks should have the same resource " ++ key)
  else
    match val0 with
    | none => .ok rt
    | some v0 =>
      if key = "walltime" then
        match expand_time v0 with
        | some t => .ok (rset rt "walltime" (.s (format_HHMMSS (nrow * t))))
        | none => .error "ValueError: walltime"
      else if key = "mem" then
        match expand_size v0 with
        | some sz =>
          .ok (rset rt "mem"
            (.n (ncol * sz + (if nWorkers > 0 then 100 * 1024 * 1024 else 0))))
        | none => .error "ValueError: mem"
      else if key = "cores" then
        match v0 with
        | .n c =>
          .ok (rset rt "cores" (.n (ncol * c + (if nWorkers > 0 then 1 else 0))))
        | .s _ => .error "TypeError: cores"
      else if key = "name" then
        .ok (rset rt "name" (.s (v0.str ++ "_" ++ toString (nStack + 1))))
      else .ok rt

/-- push's for-loop over the identity keys: stop at the first ValueError,
otherwise thread the merged _runtime mapping through. -/
def mergeKeys (first p : TaskParams) (nWorkers nStack nrow ncol : Nat) :
    List String → List (String × PVal) → Except String (List (String × PVal))
  | [], rt => .ok rt
  | k :: ks, rt =>
    match mergeKey first p nWorkers nStack nrow ncol rt k with
    | .error e => .error e
    | .ok rt2 => mergeKeys first p nWorkers nStack nrow ncol ks rt2

/-- The tail of push shared by both branches: union the input/output/depends
lists (dropping duplicates), append to the stack, dedup and re-sort tags,
and recompute the master id M{batch}_{first id}. -/
def pushFinish (m : MasterTaskParams) (tg : List String) (task_id : String)
    (p : TaskParams) : MasterTaskParams :=
  let sd := m.sos_dict
  let sd :=
    { sd with
        input := sd.input ++
          (p.sos_dict.input.eraseDups.filter (fun x => ¬ sd.input.contains x)),
        output := sd.output ++
          (p.sos_dict.output.eraseDups.filter (fun x => ¬ sd.output.contains x)),
        depends := sd.depends ++
          (p.sos_dict.depends.eraseDups.filter (fun x => ¬ sd.depends.contains x)) }
  let stack2 := m.task_stack ++ [(task_id, p)]
  let firstId := (stack2.head?.map (fun e => e.1)).getD ""
  let mid := "M" ++ toString stack2.length ++ "_" ++ firstId
  { m with sos_dict := sd, task_stack := stack2,
           tags := some (sortStrings tg.eraseDups),
           ID := mid, name := mid }

/-- The nrow grid dimension of push: len(task_stack) when
num_workers <= 1, else ceil((len(task_stack)+1)/num_workers). -/
def pushNrow (nWorkers nStack : Nat) : Nat :=
  if nWorkers ≤ 1 then nStack
  else (nStack + 1) / nWorkers + (if (nStack + 1) % nWorkers = 0 then 0 else 1)

/-- The ncol grid dimension of push: 1 when num_workers == 0, num_workers
when nrow > 1, else len(task_stack)+1. -/
def pushNcol (nWorkers nStack nrow : Nat) : Nat :=
  if nWorkers = 0 then 1
  else if nrow > 1 then nWorkers
  else nStack + 1

/-- The subsequent-push branch of push: run the identity-key loop over the
first sub-task, then extend the tags and finish. -/
def pushSubsequent (m : MasterTaskParams) (first : TaskParams)
    (task_id : String) (p : TaskParams) : Except String MasterTaskParams :=
  match mergeKeys first p m.num_workers m.task_stack.length
      (pushNrow m.num_workers m.task_stack.length)
      (pushNcol m.num_workers m.task_stack.length
        (pushNrow m.num_workers m.task_stack.length))
      identityKeys m.sos_dict.runtime with
  | .error e => .error e
  | .ok rt =>
    match m.tags, p.tags with
    | some mtags, some ptags =>
      .ok (pushFinish { m with sos_dict := { m.sos_dict with runtime := rt } }
            (mtags ++ ptags) task_id p)
    | _, _ => .error "AttributeError: tags"

/-- MasterTaskParams.push(task_id, params).  On the first push the resource
and identity keys are copied verbatim and the tags adopted; on subsequent
pushes every identity key must compare equal between the first sub-task
and the new one (ValueError otherwise), and walltime / mem / cores / name
are merged over the nrow x ncol worker grid. -/
def MasterTaskParams.push (m : MasterTaskParams) (task_id : String)
    (p : TaskParams) : Except String MasterTaskParams :=
  match m.task_stack with
  | [] =>
    let rt := firstPushKeys.foldl
      (fun acc k =>
        match rget p.sos_dict.runtime k with
        | some v => rset acc k v
        | none => acc)
      m.sos_dict.runtime
    let sd := { m.sos_dict with runtime := rt, step_name := p.sos_dict.step_name }
    match p.tags with
    | none => .error "AttributeError: tags"
    | some ptags =>
      .ok (pushFinish { m with sos_dict := sd, tags := some ptags } ptags task_id p)
  | (_, first) :: _ => pushSubsequent m first task_id p

/-- A sub-task requesting 2 cores and 1 hour of walltime. -/
def c7sub : TaskParams :=
  { name := "t", global_def := "", task := "",
    sos_dict := { runtime := [("cores", .n 2), ("walltime", .s "1h")],
                  input := [], output := [], depends := [], step_name := "s" },
    tags := some [] }

/-- Five pushes of c7sub into a master with num_workers = 2. -/
def c7master : Except String MasterTaskParams :=
  MasterTaskParams.push (MasterTaskParams.init 2) "t1" c7sub >>=
    (fun m => m.push "t2" c7sub) >>=
    (fun m => m.push "t3" c7sub) >>=
    (fun m => m.push "t4" c7sub) >>=
    (fun m => m.push "t5" c7sub)

/-! ### check_task: the liveness probe over a static filesystem snapshot

check_task inspects the record file, the pulse (liveness) file and the
submission script / job id pair through os.path.isfile / os.stat, sleeps
in an ambiguous band and re-checks, and restarts itself whenever the
record file changed underneath it.  The embedding fixes one filesystem
snapshot for the whole probe: task_changed() is then False, the sleep
observes the same pulse mtime (end_stamp = start_stamp), and the file
removals / status writes the probe performs on its way out do not alter
the values it returns.  mtimes and the clock are Int (os.stat times;
elapsed may be negative).  The record's stored status (TaskFile.status)
is carried as a string field of the snapshot. -/

/-- stat data for one file. -/
structure FInfo where
  mtime : Int
  writable : Bool
deriving DecidableEq

/-- A filesystem snapshot: stat of every existing path, the stored status
of the task record, and the current time. -/
structure TaskFS where
  stat : List (String × FInfo)
  recordStatus : String
  now : Int
deriving DecidableEq

/-- os.stat / os.path.isfile against the snapshot. -/
def statOf (fs : List (String × FInfo)) (p : String) : Option FInfo :=
  match fs.find? (fun e => e.1 == p) with
  | some e => some e.2
  | none => none

/-- The ~/.sos/tasks directory. -/
def tasksDir : String := "~/.sos/tasks/"

/-- Path of the {task}.task record file. -/
def taskFilePath (task : String) : String := tasksDir ++ task ++ ".task"

/-- Path of the {task}.pulse liveness file. -/
def pulseFilePath (task : String) : String := tasksDir ++ task ++ ".pulse"

/-- Path of the {task}.sh submission script. -/
def jobFilePath (task : String) : String := tasksDir ++ task ++ ".sh"

/-- Path of the {task}.job_id marker. -/
def jobIdFilePath (task : String) : String := tasksDir ++ task ++ ".job_id"

/-- A status hint: the previous status and its file-mtime evidence.  The
Python argument is a dict; an empty dict is Option.none at the call. -/
structure Hint where
  status : String
  files : List (String × Int)
deriving DecidableEq

/-- The probe's outcome: an uncaught exception, the empty dict (hint still
valid), or a status with its evidence files. -/
inductive CRes where
  | err : CRes
  | empty : CRes
  | found : String → List (String × Int) → CRes
deriving DecidableEq

/-- Evidence check of step 1: every file recorded with a nonzero mtime must
still exist with exactly that mtime, and every file recorded with mtime 0
must still not exist. -/
def evidenceOk (fs : List (String × FInfo)) (files : List (String × Int)) : Bool :=
  files.all (fun fv =>
    if fv.2 ≠ 0 then
      match statOf fs fv.1 with
      | some i => i.mtime == fv.2
      | none => false
    else (statOf fs fv.1).isNone)

/-- Step 1 of check_task: a non-empty hint whose status is not pending or
running and whose evidence matches the snapshot short-circuits. -/
def hintShort (fs : TaskFS) (hint : Option Hint) : Bool :=
  match hint with
  | none => false
  | some h =>
    (!(h.status == "pending" || h.status == "running")) && evidenceOk fs.stat h.files

/-- monitor_interval = 5 seconds. -/
def monitor_interval : Int := 5

/-- Lookup in the hint's files dict; a missing key is Python's KeyError. -/
def hintMtime (files : List (String × Int)) (p : String) : Option Int :=
  match files.find? (fun e => e.1 == p) with
  | some e => some e.2
  | none => none

/-- The pulse-file branch of check_task (the record exists, is not in a
terminal state, and a pulse file exists with mtime >= record mtime - 1).
Under a static snapshot task_changed() is False and the post-sleep
re-stat returns start_stamp, so both the stale case and the ambiguous
middle band mark the task aborted. -/
def pulseBranch (fs : TaskFS) (hint : Option Hint) (tpath : String)
    (tinfo : FInfo) (ppath : String) (pinfo : FInfo) : CRes :=
  let status_files := [(tpath, tinfo.mtime), (ppath, pinfo.mtime)]
  if ¬ pinfo.writable then
    .found "aborted" [(tpath, tinfo.mtime), (ppath, 0)]
  else
    let elapsed := fs.now - pinfo.mtime
    if elapsed < monitor_interval then
      match hint with
      | some h => if h.status = "running" then .empty else .found "running" status_files
      | none => .found "running" status_files
    else if elapsed > 2 * monitor_interval then
      .found "aborted" status_files
    else
      .found "aborted" status_files

/-- The final status-unchanged return of check_task: empty when a
new/pending hint still has the record's exact mtime (a hint lacking the
record path raises KeyError, which a static snapshot re-raises), else the
stored status with fresh evidence. -/
def jobTail (hint : Option Hint) (tpath : String) (tinfo : FInfo)
    (status : String) (jpath : String) : CRes :=
  match hint with
  | some h =>
    if h.status = "new" ∨ h.status = "pending" then
      match hintMtime h.files tpath with
      | some v =>
        if v = tinfo.mtime then .empty
        else .found status [(tpath, tinfo.mtime), (jpath, 0)]
      | none => .err
    else .found status [(tpath, tinfo.mtime), (jpath, 0)]
  | none => .found status [(tpath, tinfo.mtime), (jpath, 0)]

/-- The no-pulse tail of check_task: the submitted check (job script and
job id both newer than the record), else the status-unchanged return. -/
def jobBranch (fs : TaskFS) (task : String) (hint : Option Hint)
    (tpath : String) (tinfo : FInfo) (status : String) : CRes :=
  let jpath := jobFilePath task
  let jidpath := jobIdFilePath task
  match statOf fs.stat jpath, statOf fs.stat jidpath with
  | some jinfo, some jidinfo =>
    if jinfo.mtime ≥ tinfo.mtime ∧ jidinfo.mtime ≥ jinfo.mtime then
      .found "submitted"
        [(tpath, tinfo.mtime), (jpath, jinfo.mtime), (pulseFilePath task, 0)]
    else jobTail hint tpath tinfo status jpath
  | _, _ => jobTail hint tpath tinfo status jpath

/-- check_task(task, hint) over a static snapshot. -/
def check_task (fs : TaskFS) (task : String) (hint : Option Hint) : CRes :=
  if hintShort fs hint then .empty
  else
    let tpath := taskFilePath task
    match statOf fs.stat tpath with
    | none => .found "missing" [(tpath, 0)]
    | some tinfo =>
      let status := fs.recordStatus
      if status = "failed" ∨ status = "completed" ∨ status = "aborted" then
        .found status [(tpath, tinfo.mtime)]
      else
        let ppath := pulseFilePath task
        match statOf fs.stat ppath with
        | some pinfo =>
          if pinfo.mtime ≥ tinfo.mtime - 1 then
            pulseBranch fs hint tpath tinfo ppath pinfo
          else jobBranch fs task hint tpath tinfo status
        | none => jobBranch fs task hint tpath tinfo status

/-- A snapshot with a completed record and a matching hint (used to settle
the terminal-state claims). -/
def c4fs : TaskFS :=
  { stat := [(taskFilePath "t", ⟨10, true⟩), (pulseFilePath "t", ⟨50, true⟩)],
    recordStatus := "completed", now := 100 }

/-- A hint whose evidence matches c4fs exactly. -/
def c4hint : Hint :=
  { status := "completed", files := [(taskFilePath "t", 10)] }

/-- The names of the enumerated TaskStatus states. -/
def statusNames : List String :=
  ["new", "pending", "submitted", "running", "aborted", "failed", "completed"]

/-- Did the call succeed (no exception)? -/
def exOk {α : Type} : Except String α → Bool
  | .ok _ => true
  | .error _ => false

/-- Is a runtime value an integer? -/
def PVal.isNat : PVal → Bool
  | .n _ => true
  | .s _ => false

/-- A master batch holding one pushed sub-task (c7sub). -/
def c8master : MasterTaskParams :=
  match MasterTaskParams.push (MasterTaskParams.init 2) "t1" c7sub with
  | .ok m => m
  | .error _ => MasterTaskParams.init 2

/-- A sub-task identical to c7sub except that it requests 3 cores. -/
def c8bad : TaskParams :=
  { c7sub with
      sos_dict := { c7sub.sos_dict with
        runtime := [("cores", .n 3), ("walltime", .s "1h")] } }

/-!
## Theorems

First the general lemmas about the byte-level primitives and the
operations, then one theorem per verified claim (with its witness or
counterexample where applicable).
-/

theorem beBytes_length (k n : Nat) : (beBytes k n).length = k := by
  induction k generalizing n with
  | zero => rfl
  | succ k ih => simp [beBytes, ih]

theorem beBytes_lt (k n : Nat) : ∀ b ∈ beBytes k n, b < 256 := by
  induction k generalizing n with
  | zero => simp [beBytes]
  | succ k ih =>
    intro b hb
    simp only [beBytes, List.mem_append, List.mem_singleton] at hb
    rcases hb with hb | hb
    · exact ih _ _ hb
    · subst hb; exact Nat.mod_lt _ (by norm_num)

theorem deBE_append_singleton (l : List Nat) (b : Nat) :
    deBE (l ++ [b]) = deBE l * 256 + b := by
  simp [deBE, List.foldl_append]

theorem deBE_beBytes (k n : Nat) (h : n < 256 ^ k) : deBE (beBytes k n) = n := by
  induction k generalizing n with
  | zero =>
    interval_cases n
    rfl
  | succ k ih =>
    have hdiv : n / 256 < 256 ^ k := by
      rw [Nat.div_lt_iff_lt_mul (by norm_num)]
      calc n < 256 ^ (k + 1) := h
        _ = 256 ^ k * 256 := by ring
    rw [beBytes, deBE_append_singleton, ih _ hdiv]
    omega

theorem fit128_length (bs : List Nat) : (fit128 bs).length = 128 := by
  simp only [fit128, List.length_append, List.length_take, List.length_replicate]
  omega

theorem fit128_eq_self (bs : List Nat) (h : bs.length = 128) : fit128 bs = bs := by
  have h1 : bs.take 128 = bs := List.take_of_length_le (by omega)
  simp [fit128, h, h1]

theorem packHeader_length (h : TaskHeader) : (packHeader h).length = 224 := by
  simp [packHeader, beBytes_length, fit128_length]

theorem unpackHeader_packHeader (h : TaskHeader) (hwf : h.WF) :
    unpackHeader (packHeader h) = h := by
  obtain ⟨hv, hs, htl, _, ht1, ht2, ht3, ht4, ht5, ht6, ht7, ht8,
    hz1, hz2, hz3, hz4, hz5, hz6⟩ := hwf
  simp only [unpackHeader, packHeader, List.append_assoc]
  rw [List.take_left' (beBytes_length 4 h.version),
      List.drop_left' (beBytes_length 4 h.version),
      List.take_left' (beBytes_length 4 h.status),
      List.drop_left' (beBytes_length 4 h.status),
      List.take_left' (fit128_length h.tags),
      List.drop_left' (fit128_length h.tags),
      List.take_left' (beBytes_length 8 h.new_time),
      List.drop_left' (beBytes_length 8 h.new_time),
      List.take_left' (beBytes_length 8 h.pending_time),
      List.drop_left' (beBytes_length 8 h.pending_time),
      List.take_left' (beBytes_length 8 h.submitted_time),
      List.drop_left' (beBytes_length 8 h.submitted_time),
      List.take_left' (beBytes_length 8 h.running_time),
      List.drop_left' (beBytes_length 8 h.running_time),
      List.take_left' (beBytes_length 8 h.aborted_time),
      List.drop_left' (beBytes_length 8 h.aborted_time),
      List.take_left' (beBytes_length 8 h.failed_time),
      List.drop_left' (beBytes_length 8 h.failed_time),
      List.take_left' (beBytes_length 8 h.completed_time),
      List.drop_left' (beBytes_length 8 h.completed_time),
      List.take_left' (beBytes_length 8 h.last_modified),
      List.drop_left' (beBytes_length 8 h.last_modified),
      List.take_left' (beBytes_length 4 h.params_size),
      List.drop_left' (beBytes_length 4 h.params_size),
      List.take_left' (beBytes_length 4 h.pulse_size),
      List.drop_left' (beBytes_length 4 h.pulse_size),
      List.take_left' (beBytes_length 4 h.stdout_size),
      List.drop_left' (beBytes_length 4 h.stdout_size),
      List.take_left' (beBytes_length 4 h.stderr_size),
      List.drop_left' (beBytes_length 4 h.stderr_size),
      List.take_left' (beBytes_length 4 h.result_size),
      List.drop_left' (beBytes_length 4 h.result_size),
      List.take_of_length_le (le_of_eq (beBytes_length 4 h.signature_size))]
  rw [deBE_beBytes 4 h.version hv, deBE_beBytes 4 h.status hs,
      fit128_eq_self h.tags htl,
      deBE_beBytes 8 h.new_time ht1, deBE_beBytes 8 h.pending_time ht2,
      deBE_beBytes 8 h.submitted_time ht3, deBE_beBytes 8 h.running_time ht4,
      deBE_beBytes 8 h.aborted_time ht5, deBE_beBytes 8 h.failed_time ht6,
      deBE_beBytes 8 h.completed_time ht7, deBE_beBytes 8 h.last_modified ht8,
      deBE_beBytes 4 h.params_size hz1, deBE_beBytes 4 h.pulse_size hz2,
      deBE_beBytes 4 h.stdout_size hz3, deBE_beBytes 4 h.stderr_size hz4,
      deBE_beBytes 4 h.result_size hz5, deBE_beBytes 4 h.signature_size hz6]

theorem writeAt_chunk (a b c d : List Nat) (off : Nat) (ha : a.length = off)
    (hb : b.length = d.length) (hd : d ≠ []) :
    writeAt off d (a ++ (b ++ c)) = a ++ (d ++ c) := by
  have h1 : ¬ (a ++ (b ++ c)).length < off := by
    simp only [List.length_append]; omega
  simp only [writeAt, if_neg hd, if_neg h1]
  rw [List.take_left' ha, ← ha, List.drop_append, ← hb, List.drop_left]
  simp [List.append_assoc]

theorem writeAt_chunk2 (a1 a2 b c d : List Nat) (off : Nat)
    (ha : a1.length + a2.length = off) (hb : b.length = d.length) (hd : d ≠ []) :
    writeAt off d (a1 ++ (a2 ++ (b ++ c))) = a1 ++ (a2 ++ (d ++ c)) := by
  have h := writeAt_chunk (a1 ++ a2) b c d off (by simp [ha]) hb hd
  simpa [List.append_assoc] using h

/-! ### Claim C1 (header/offset invariant) -/

/-- Claim C1, evaluated at a failing input: after creating a record with a
3-byte params block, attaching a 2-byte result, then calling add_outputs
with no companion files, the header's six section sizes sum to 5 while
only 3 body bytes remain, so header size + recorded sizes (229) is not
the file length (227): add_outputs calls _reset (which truncates the
result away) but then rewrites the header it read BEFORE the reset,
whose stale result_size is 2. -/
theorem taskfile_header_invariant_broken_eval :
    fileLength c1file2 ≠ headerSize + sizeSum c1file2.header ∧
    c1file2.header.result_size = 2 ∧ c1file2.body.length = 3 := by
  decide

/-! ### Claim C2 (accessor decode-failure handling) -/

/-- Claim C2 (amended): a decompression/decode failure in the pulse,
stdout or stderr accessor is caught and the empty string returned; in the
result AND signature accessors it is caught and the sentinel
{'ret_code': 1} returned; the params accessor alone has no handler, so
its decode failure propagates to the caller. -/
theorem taskfile_accessors_decode_failure_behavior (f : TFile)
    (decS : List Nat → Option String)
    (decD : List Nat → Option (List (String × Nat)))
    (decP : List Nat → Option Nat)
    (hS : ∀ bs, decS bs = none) (hD : ∀ bs, decD bs = none)
    (hP : ∀ bs, decP bs = none)
    (hpu : f.header.pulse_size ≠ 0) (hso : f.header.stdout_size ≠ 0)
    (hse : f.header.stderr_size ≠ 0) (hre : f.header.result_size ≠ 0)
    (hsi : f.header.signature_size ≠ 0) (hpa : f.header.params_size ≠ 0) :
    TaskFile.getPulse decS f = .ok "" ∧
    TaskFile.getStdout decS f = .ok "" ∧
    TaskFile.getStderr decS f = .ok "" ∧
    TaskFile.getResult decD f = .ok [("ret_code", 1)] ∧
    TaskFile.getSignature decD f = .ok [("ret_code", 1)] ∧
    TaskFile.getParams decP 0 f = .error "lzma.LZMAError in params" := by
  simp [TaskFile.getPulse, TaskFile.getStdout, TaskFile.getStderr,
        TaskFile.getResult, TaskFile.getSignature, TaskFile.getParams,
        hS, hD, hP, hpu, hso, hse, hre, hsi, hpa]

/-- Witness for C2 at a concrete record and an always-failing decoder. -/
theorem taskfile_accessors_decode_failure_witness :
    TaskFile.getPulse (fun _ => none) exFile = .ok "" ∧
    TaskFile.getStdout (fun _ => none) exFile = .ok "" ∧
    TaskFile.getStderr (fun _ => none) exFile = .ok "" ∧
    TaskFile.getResult (fun _ => none) exFile = .ok [("ret_code", 1)] ∧
    TaskFile.getSignature (fun _ => none) exFile = .ok [("ret_code", 1)] ∧
    TaskFile.getParams (fun _ => none) 0 exFile = .error "lzma.LZMAError in params" :=
  taskfile_accessors_decode_failure_behavior exFile _ _ _
    (fun _ => rfl) (fun _ => rfl) (fun _ => rfl)
    (by decide) (by decide) (by decide) (by decide) (by decide) (by decide)

/-- Counterexample to C2 as stated: at a record whose params section is
present but undecodable, the params accessor raises instead of returning
an empty/default value (and the signature accessor returns the sentinel
{'ret_code': 1}, the same value as result, not an empty value). -/
theorem taskfile_params_decode_failure_propagates :
    TaskFile.getParams (fun _ => (none : Option Nat)) 0 exFile =
      .error "lzma.LZMAError in params" ∧
    TaskFile.getSignature (fun _ => none) exFile = .ok [("ret_code", 1)] := by
  exact ⟨rfl, rfl⟩

/-! ### Claim C3 (reset vs update) -/

/-- Claim C3 (amended): reset performs the same header reset as update —
all transition timestamps zeroed, new_time and last_modified set to now,
the pulse/stdout/stderr/result/signature sizes zeroed, version and tags
untouched — except that it sets the status to NEW (0), not update's
pending (1), keeps the existing params section and its recorded size, and
truncates the file to header size plus params size. -/
theorem taskfile_reset_header_spec (f : TFile) (pb : List Nat) (now : Nat) :
    (TaskFile.resetF f now).header.status = 0 ∧
    (TaskFile.update f pb now).header.status = 1 ∧
    (TaskFile.resetF f now).header =
      { (TaskFile.update f pb now).header with
          status := 0, params_size := f.header.params_size } ∧
    (TaskFile.resetF f now).header.version = f.header.version ∧
    (TaskFile.resetF f now).header.tags = f.header.tags ∧
    (TaskFile.resetF f now).header.new_time = now ∧
    (TaskFile.resetF f now).header.last_modified = now ∧
    (TaskFile.resetF f now).header.pending_time = 0 ∧
    (TaskFile.resetF f now).header.submitted_time = 0 ∧
    (TaskFile.resetF f now).header.running_time = 0 ∧
    (TaskFile.resetF f now).header.aborted_time = 0 ∧
    (TaskFile.resetF f now).header.failed_time = 0 ∧
    (TaskFile.resetF f now).header.completed_time = 0 ∧
    (TaskFile.resetF f now).header.params_size = f.header.params_size ∧
    (TaskFile.resetF f now).header.pulse_size = 0 ∧
    (TaskFile.resetF f now).header.stdout_size = 0 ∧
    (TaskFile.resetF f now).header.stderr_size = 0 ∧
    (TaskFile.resetF f now).header.result_size = 0 ∧
    (TaskFile.resetF f now).header.signature_size = 0 ∧
    (TaskFile.resetF f now).body = truncBytes f.body f.header.params_size := by
  refine ⟨rfl, rfl, rfl, rfl, rfl, rfl, rfl, rfl, rfl, rfl,
    rfl, rfl, rfl, rfl, rfl, rfl, rfl, rfl, rfl, rfl⟩

/-- Counterexample to C3 as stated: reset sets the status to new (0), not
to pending (1) as update does. -/
theorem taskfile_reset_status_not_pending :
    (TaskFile.resetF exFile 7).header.status ≠ 1 := by
  decide

/-! ### Claim C6 (status setter) -/

/-- Claim C6 (amended): the setter accepts the six states pending,
submitted, running, failed, aborted, completed at any time, each setting
exactly its own timestamp plus last_modified (all other header fields and
the body unchanged); but the enumerated state "new", like any
unrecognized value, raises RuntimeError and leaves the record unchanged
(the error is raised before the header is written back). -/
theorem taskfile_set_status_spec (f : TFile) (now : Nat) (s : String) :
    TaskFile.setStatus f "pending" now =
      .ok ⟨{ f.header with status := 1, pending_time := now, last_modified := now }, f.body⟩ ∧
    TaskFile.setStatus f "submitted" now =
      .ok ⟨{ f.header with status := 2, submitted_time := now, last_modified := now }, f.body⟩ ∧
    TaskFile.setStatus f "running" now =
      .ok ⟨{ f.header with status := 3, running_time := now, last_modified := now }, f.body⟩ ∧
    TaskFile.setStatus f "failed" now =
      .ok ⟨{ f.header with status := 5, failed_time := now, last_modified := now }, f.body⟩ ∧
    TaskFile.setStatus f "aborted" now =
      .ok ⟨{ f.header with status := 4, aborted_time := now, last_modified := now }, f.body⟩ ∧
    TaskFile.setStatus f "completed" now =
      .ok ⟨{ f.header with status := 6, completed_time := now, last_modified := now }, f.body⟩ ∧
    (s ∉ ["pending", "submitted", "running", "failed", "aborted", "completed"] →
      TaskFile.setStatus f s now = .error ("Unrecognized task status: " ++ s)) := by
  refine ⟨rfl, rfl, rfl, rfl, rfl, rfl, ?_⟩
  intro hs
  simp only [List.mem_cons, List.not_mem_nil, or_false, not_or] at hs
  obtain ⟨h1, h2, h3, h4, h5, h6⟩ := hs
  simp [TaskFile.setStatus, h1, h2, h3, h4, h5, h6]

/-- Witness for C6: a recognized set and an unrecognized set at a concrete
record. -/
theorem taskfile_set_status_spec_witness :
    TaskFile.setStatus exFile "running" 9 =
      .ok ⟨{ exHeader with status := 3, running_time := 9, last_modified := 9 }, exFile.body⟩ ∧
    TaskFile.setStatus exFile "finished" 9 =
      .error "Unrecognized task status: finished" :=
  ⟨(taskfile_set_status_spec exFile 9 "finished").2.2.1,
   (taskfile_set_status_spec exFile 9 "finished").2.2.2.2.2.2 (by decide)⟩

/-- Counterexample to C6 as stated: "new" is one of the enumerated
TaskStatus states, yet setting it raises RuntimeError. -/
theorem taskfile_set_status_new_raises :
    "new" ∈ statusNames ∧
    TaskFile.setStatus exFile "new" 5 = .error "Unrecognized task status: new" := by
  exact ⟨by decide, rfl⟩

/-! ### Claim C9 (save mutates its argument) -/

/-- Claim C9: when the backing file does not exist, save deletes the tags
attribute from the caller's params object before serializing it — the
block written is the serialization of the mutated object and the returned
object has no tags attribute; when the backing file exists, save returns
without modifying the file or the params object. -/
theorem taskfile_save_mutates_params (file : Option TFile) (f : TFile)
    (p : TaskParams) (tg : List String) (ser : TaskParams → List Nat)
    (now : Nat) :
    (file = some f → TaskFile.save file p ser now = .ok (some f, p)) ∧
    (file = none → p.tags = some tg →
      TaskFile.save file p ser now =
        .ok (some ⟨saveHeader tg (ser { p with tags := none }).length now,
                   ser { p with tags := none }⟩,
             { p with tags := none })) := by
  constructor
  · rintro rfl; rfl
  · rintro rfl htg
    simp [TaskFile.save, htg]

/-- Witness for C9: a fresh save deletes tags; a save over an existing file
is a no-op. -/
theorem taskfile_save_mutates_params_witness :
    TaskFile.save none exParams (fun _ => [1, 2, 3]) 0 =
      .ok (some ⟨saveHeader ["a"] 3 0, [1, 2, 3]⟩,
           { exParams with tags := none }) ∧
    TaskFile.save (some exFile) exParams (fun _ => [1, 2, 3]) 0 =
      .ok (some exFile, exParams) :=
  ⟨(taskfile_save_mutates_params none exFile exParams ["a"]
      (fun _ => [1, 2, 3]) 0).2 rfl rfl,
   (taskfile_save_mutates_params (some exFile) exFile exParams ["a"]
      (fun _ => [1, 2, 3]) 0).1 rfl⟩

/-! ### Claim C5 (cache short-circuit) -/

/-- Claim C5: for every task and every non-empty hint whose status is
neither pending nor running, if every file in the hint's evidence either
still exists with exactly the recorded mtime (nonzero entries) or still
does not exist (entries recorded 0), check_task returns the empty result. -/
theorem check_task_hint_match_returns_empty (fs : TaskFS) (task : String)
    (h : Hint) (hst1 : h.status ≠ "pending") (hst2 : h.status ≠ "running")
    (hev : evidenceOk fs.stat h.files = true) :
    check_task fs task (some h) = CRes.empty := by
  have hshort : hintShort fs (some h) = true := by
    simp [hintShort, hev, hst1, hst2]
  simp [check_task, hshort]

/-- Witness for C5 at a concrete snapshot and hint. -/
theorem check_task_hint_match_returns_empty_witness :
    check_task c4fs "t" (some c4hint) = CRes.empty :=
  check_task_hint_match_returns_empty c4fs "t" c4hint
    (by decide) (by decide) (by decide)

/-! ### Claim C4 (terminal states are sticky) -/

/-- Claim C4 (amended): when the record exists with a terminal stored
status (completed/failed/aborted) and the hint does not trigger the
step-1 cache short-circuit (no hint, or a pending/running hint status, or
mismatching evidence), check_task returns that terminal status with the
record file mapped to its current mtime as the only evidence — for every
state of the pulse, job and job-id files, i.e. without consulting the
liveness branch.  (As literally stated, for EVERY hint, the claim fails:
a matching non-live hint short-circuits to the empty result first.) -/
theorem check_task_terminal_sticky (fs : TaskFS) (task : String)
    (hint : Option Hint) (tinfo : FInfo)
    (hrec : statOf fs.stat (taskFilePath task) = some tinfo)
    (hterm : fs.recordStatus = "failed" ∨ fs.recordStatus = "completed" ∨
      fs.recordStatus = "aborted")
    (hhint : hintShort fs hint = false) :
    check_task fs task hint =
      CRes.found fs.recordStatus [(taskFilePath task, tinfo.mtime)] := by
  simp only [check_task, hhint, Bool.false_eq_true, if_false, hrec]
  rcases hterm with ht | ht | ht <;> simp [ht]

/-- Witness for C4 at a concrete snapshot (empty hint). -/
theorem check_task_terminal_sticky_witness :
    check_task c4fs "t" none =
      CRes.found "completed" [(taskFilePath "t", 10)] :=
  check_task_terminal_sticky c4fs "t" none ⟨10, true⟩
    (by decide) (by decide) (by decide)

/-- Counterexample to C4 as stated: the record of c4fs exists and its
stored status is the terminal "completed", yet with a matching hint
check_task returns the empty result, not the terminal status with fresh
evidence. -/
theorem check_task_terminal_hint_shortcircuit :
    c4fs.recordStatus = "completed" ∧
    (statOf c4fs.stat (taskFilePath "t")).isSome = true ∧
    check_task c4fs "t" (some c4hint) ≠
      CRes.found "completed" [(taskFilePath "t", 10)] ∧
    check_task c4fs "t" (some c4hint) = CRes.empty := by
  decide

/-! ### Claim C7 (batch resource arithmetic) -/

/-- Claim C7: pushing 5 sub-tasks, each requiring 2 cores and 1 hour of
walltime, into a MasterTaskParams with num_workers = 2 succeeds and
yields master cores = 2 x 2 + 1 = 5 and master walltime = 3 x 1h
(rows = ceil(5/2) = 3, cols = 2), rendered in H:M:S form. -/
theorem master_push_batch_resource_arithmetic :
    c7master.toOption.map (fun m =>
      (rget m.sos_dict.runtime "cores", rget m.sos_dict.runtime "walltime",
       m.ID)) =
    some (some (.n 5), some (.s (format_HHMMSS (3 * 3600))), "M5_t1") := by
  decide

/-! ### Claim C8 (identity-key agreement in push) -/

theorem mergeKey_mismatch_err (first p : TaskParams) (nW nS nrow ncol : Nat)
    (key : String)
    (hv : rget p.sos_dict.runtime key ≠ rget first.sos_dict.runtime key) :
    ∀ rt, exOk (mergeKey first p nW nS nrow ncol rt key) = false := by
  intro rt
  have h0 : rget first.sos_dict.runtime key ≠ rget p.sos_dict.runtime key :=
    Ne.symm hv
  simp [mergeKey, h0, exOk]

theorem mergeKeys_err (first p : TaskParams) (nW nS nrow ncol : Nat)
    (k : String)
    (hg : ∀ rt, exOk (mergeKey first p nW nS nrow ncol rt k) = false) :
    ∀ (keys : List String) (rt : List (String × PVal)), k ∈ keys →
      exOk (mergeKeys first p nW nS nrow ncol keys rt) = false := by
  intro keys
  induction keys with
  | nil => intro rt hk; cases hk
  | cons x xs ih =>
    intro rt hk
    cases hmk : mergeKey first p nW nS nrow ncol rt x with
    | error e => simp [mergeKeys, hmk, exOk]
    | ok rt2 =>
      rcases List.mem_cons.mp hk with hx | hx
      · subst hx
        have := hg rt
        rw [hmk] at this
        simp [exOk] at this
      · simp only [mergeKeys, hmk]
        exact ih rt2 hx

theorem mergeKeys_ok (first p : TaskParams) (nW nS nrow ncol : Nat) :
    ∀ (keys : List String) (rt : List (String × PVal)),
      (∀ rt2 k, k ∈ keys → exOk (mergeKey first p nW nS nrow ncol rt2 k) = true) →
      exOk (mergeKeys first p nW nS nrow ncol keys rt) = true := by
  intro keys
  induction keys with
  | nil => intro rt _; rfl
  | cons x xs ih =>
    intro rt hg
    have hx := hg rt x (List.mem_cons_self x xs)
    cases hmk : mergeKey first p nW nS nrow ncol rt x with
    | error e => rw [hmk] at hx; simp [exOk] at hx
    | ok rt2 =>
      simp only [mergeKeys, hmk]
      exact ih rt2 (fun rt3 k hk => hg rt3 k (List.mem_cons_of_mem x hk))

theorem mergeKey_ok_of_eq (first p : TaskParams) (nW nS nrow ncol : Nat)
    (key : String) (hk : key ∈ identityKeys)
    (heq : rget p.sos_dict.runtime key = rget first.sos_dict.runtime key)
    (hwall : (rget first.sos_dict.runtime "walltime").all
      (fun v => (expand_time v).isSome) = true)
    (hmem2 : (rget first.sos_dict.runtime "mem").all
      (fun v => (expand_size v).isSome) = true)
    (hcores : (rget first.sos_dict.runtime "cores").all PVal.isNat = true) :
    ∀ rt, exOk (mergeKey first p nW nS nrow ncol rt key) = true := by
  intro rt
  simp only [identityKeys, List.mem_cons, List.not_mem_nil, or_false] at hk
  rcases hk with rfl | rfl | rfl | rfl | rfl | rfl | rfl | rfl | rfl
  · -- walltime
    cases hv0 : rget first.sos_dict.runtime "walltime" with
    | none => simp [mergeKey, heq, hv0, exOk]
    | some v0 =>
      rw [hv0] at hwall
      obtain ⟨t, ht⟩ := Option.isSome_iff_exists.mp (by simpa using hwall)
      simp [mergeKey, heq, hv0, ht, exOk]
  · -- max_walltime
    cases hv0 : rget first.sos_dict.runtime "max_walltime" with
    | none => simp [mergeKey, heq, hv0, exOk]
    | some v0 => simp [mergeKey, heq, hv0, exOk]
  · -- cores
    cases hv0 : rget first.sos_dict.runtime "cores" with
    | none => simp [mergeKey, heq, hv0, exOk]
    | some v0 =>
      rw [hv0] at hcores
      cases v0 with
      | s v => simp [PVal.isNat] at hcores
      | n c => simp [mergeKey, heq, hv0, exOk]
  · -- max_cores
    cases hv0 : rget first.sos_dict.runtime "max_cores" with
    | none => simp [mergeKey, heq, hv0, exOk]
    | some v0 => simp [mergeKey, heq, hv0, exOk]
  · -- mem
    cases hv0 : rget first.sos_dict.runtime "mem" with
    | none => simp [mergeKey, heq, hv0, exOk]
    | some v0 =>
      rw [hv0] at hmem2
      obtain ⟨sz, hsz⟩ := Option.isSome_iff_exists.mp (by simpa using hmem2)
      simp [mergeKey, heq, hv0, hsz, exOk]
  · -- max_mem
    cases hv0 : rget first.sos_dict.runtime "max_mem" with
    | none => simp [mergeKey, heq, hv0, exOk]
    | some v0 => simp [mergeKey, heq, hv0, exOk]
  · -- name
    cases hv0 : rget first.sos_dict.runtime "name" with
    | none => simp [mergeKey, heq, hv0, exOk]
    | some v0 => simp [mergeKey, heq, hv0, exOk]
  · -- cur_dir
    cases hv0 : rget first.sos_dict.runtime "cur_dir" with
    | none => simp [mergeKey, heq, hv0, exOk]
    | some v0 => simp [mergeKey, heq, hv0, exOk]
  · -- home_dir
    cases hv0 : rget first.sos_dict.runtime "home_dir" with
    | none => simp [mergeKey, heq, hv0, exOk]
    | some v0 => simp [mergeKey, heq, hv0, exOk]

/-- Claim C8: if a master already holds a pushed sub-task, a subsequent
push whose params carry, for some identity key, a value different from
the first sub-task's value raises ValueError; a push whose identity-key
values all equal the first sub-task's (with merge-typable walltime, mem
and cores values and tags present, as push's merging assumes) succeeds. -/
theorem master_push_identity_key_check
    (m : MasterTaskParams) (id0 : String) (first : TaskParams)
    (rest : List (String × TaskParams)) (tid : String) (p q : TaskParams)
    (key : String)
    (hstack : m.task_stack = (id0, first) :: rest) :
    ((key ∈ identityKeys ∧
        rget p.sos_dict.runtime key ≠ rget first.sos_dict.runtime key) →
      exOk (m.push tid p) = false) ∧
    (((∀ k ∈ identityKeys,
          rget q.sos_dict.runtime k = rget first.sos_dict.runtime k) ∧
      (rget first.sos_dict.runtime "walltime").all
        (fun v => (expand_time v).isSome) = true ∧
      (rget first.sos_dict.runtime "mem").all
        (fun v => (expand_size v).isSome) = true ∧
      (rget first.sos_dict.runtime "cores").all PVal.isNat = true ∧
      m.tags.isSome = true ∧ q.tags.isSome = true) →
      exOk (m.push tid q) = true) := by
  constructor
  · rintro ⟨hk, hv⟩
    have herr := mergeKeys_err first p m.num_workers m.task_stack.length
      (pushNrow m.num_workers m.task_stack.length)
      (pushNcol m.num_workers m.task_stack.length
        (pushNrow m.num_workers m.task_stack.length))
      key (mergeKey_mismatch_err first p _ _ _ _ key hv)
      identityKeys m.sos_dict.runtime hk
    simp only [MasterTaskParams.push, hstack]
    cases hmk : mergeKeys first p m.num_workers m.task_stack.length
        (pushNrow m.num_workers m.task_stack.length)
        (pushNcol m.num_workers m.task_stack.length
          (pushNrow m.num_workers m.task_stack.length))
        identityKeys m.sos_dict.runtime with
    | error e =>
      simp only [pushSubsequent]
      rw [hmk]
      simp [exOk]
    | ok rt => rw [hmk] at herr; simp [exOk] at herr
  · rintro ⟨heq, hwall, hmem2, hcores, hmt, hqt⟩
    obtain ⟨mt, hmt2⟩ := Option.isSome_iff_exists.mp hmt
    obtain ⟨qt, hqt2⟩ := Option.isSome_iff_exists.mp hqt
    have hok := mergeKeys_ok first q m.num_workers m.task_stack.length
      (pushNrow m.num_workers m.task_stack.length)
      (pushNcol m.num_workers m.task_stack.length
        (pushNrow m.num_workers m.task_stack.length))
      identityKeys m.sos_dict.runtime
      (fun rt2 k hk =>
        mergeKey_ok_of_eq first q _ _ _ _ k hk (heq k hk) hwall hmem2 hcores rt2)
    simp only [MasterTaskParams.push, hstack]
    cases hmk : mergeKeys first q m.num_workers m.task_stack.length
        (pushNrow m.num_workers m.task_stack.length)
        (pushNcol m.num_workers m.task_stack.length
          (pushNrow m.num_workers m.task_stack.length))
        identityKeys m.sos_dict.runtime with
    | error e => rw [hmk] at hok; simp [exOk] at hok
    | ok rt =>
      simp only [pushSubsequent]
      rw [hmk]
      simp [hmt2, hqt2, exOk]

/-- Witness for C8: pushing a 3-core sub-task after a 2-core one raises;
pushing an identical sub-task succeeds. -/
theorem master_push_identity_key_check_witness :
    exOk (c8master.push "t2" c8bad) = false ∧
    exOk (c8master.push "t2" c7sub) = true :=
  ⟨(master_push_identity_key_check c8master "t1" c7sub [] "t2" c8bad c7sub
      "cores" (by decide)).1 ⟨by decide, by decide⟩,
   (master_push_identity_key_check c8master "t1" c7sub [] "t2" c8bad c7sub
      "cores" (by decide)).2
     ⟨by decide, by decide, by decide, by decide, by decide, by decide⟩⟩

/-! ### Claim C10 (tags setter/getter) -/

theorem utf8EncodeChar_ascii (c : Char) (h : c.toNat < 0x80) :
    utf8EncodeChar c = [c.toNat] := by
  simp [utf8EncodeChar, h]

theorem utf8Encode_ascii (cs : List Char) (h : ∀ c ∈ cs, c.toNat < 0x80) :
    utf8Encode cs = cs.map Char.toNat := by
  induction cs with
  | nil => rfl
  | cons c l ih =>
    have hc := h c (List.mem_cons_self c l)
    have hl := fun x hx => h x (List.mem_cons_of_mem c hx)
    simp [utf8Encode, List.map_cons, utf8EncodeChar_ascii c hc]
    simpa [utf8Encode] using ih hl

theorem utf8Step_ascii (b : Nat) (bs : List Nat) (h : b < 0x80) :
    utf8Step (b :: bs) = some (Char.ofNat b, bs) := by
  simp [utf8Step, h]

theorem utf8Decode_cons_ascii (b : Nat) (bs : List Nat) (h : b < 0x80) :
    utf8Decode (b :: bs) = (utf8Decode bs).map (fun cs => Char.ofNat b :: cs) := by
  show utf8DecodeAux (bs.length + 1) (b :: bs) = _
  rw [utf8DecodeAux, utf8Step_ascii b bs h]
  rfl

theorem utf8Decode_encode_ascii (cs : List Char) (h : ∀ c ∈ cs, c.toNat < 0x80) :
    utf8Decode (utf8Encode cs) = some cs := by
  induction cs with
  | nil => rfl
  | cons c l ih =>
    have hc := h c (List.mem_cons_self c l)
    have hl := fun x hx => h x (List.mem_cons_of_mem c hx)
    have henc : utf8Encode (c :: l) = c.toNat :: utf8Encode l := by
      simp [utf8Encode, utf8EncodeChar_ascii c hc]
    rw [henc, utf8Decode_cons_ascii _ _ hc, ih hl]
    simp [Char.ofNat_toNat]

theorem joinWithSpace_ne_nil (x : List Char) (xs : List (List Char))
    (hx : x ≠ []) : joinWithSpace (x :: xs) ≠ [] := by
  cases xs with
  | nil => simpa [joinWithSpace] using hx
  | cons y ys => simp [joinWithSpace]

theorem mem_joinWithSpace (l : List (List Char)) (c : Char) :
    c ∈ joinWithSpace l → (∃ x ∈ l, c ∈ x) ∨ c = ' ' := by
  induction l with
  | nil => intro h; simp [joinWithSpace] at h
  | cons x xs ih =>
    intro h
    cases xs with
    | nil =>
      simp only [joinWithSpace] at h
      exact Or.inl ⟨x, by simp, h⟩
    | cons y ys =>
      simp only [joinWithSpace] at h
      rcases List.mem_append.mp h with h1 | h1
      · exact Or.inl ⟨x, by simp, h1⟩
      · rcases List.mem_cons.mp h1 with h2 | h2
        · exact Or.inr h2
        · rcases ih h2 with ⟨z, hz, hcz⟩ | h3
          · exact Or.inl ⟨z, List.mem_cons_of_mem x hz, hcz⟩
          · exact Or.inr h3

theorem joinWithSpace_head? (x : List Char) (xs : List (List Char))
    (hx : x ≠ []) : (joinWithSpace (x :: xs)).head? = x.head? := by
  cases xs with
  | nil => rfl
  | cons y ys =>
    simp only [joinWithSpace, List.head?_append]
    cases hcx : x.head? with
    | none => exact absurd (List.head?_eq_none_iff.mp hcx) hx
    | some c => rfl

theorem joinWithSpace_getLast? (l : List (List Char))
    (hne : ∀ x ∈ l, x ≠ []) (hl : l ≠ []) :
    ∃ y ∈ l, (joinWithSpace l).getLast? = y.getLast? := by
  induction l with
  | nil => exact absurd rfl hl
  | cons x xs ih =>
    cases xs with
    | nil => exact ⟨x, by simp, rfl⟩
    | cons y ys =>
      obtain ⟨z, hz, hzl⟩ :=
        ih (fun a ha => hne a (List.mem_cons_of_mem x ha)) (by simp)
      refine ⟨z, List.mem_cons_of_mem x hz, ?_⟩
      have hJ : joinWithSpace (y :: ys) ≠ [] :=
        joinWithSpace_ne_nil y ys (hne y (by simp))
      obtain ⟨w, hw⟩ :=
        Option.isSome_iff_exists.mp (List.getLast?_isSome.mpr hJ)
      simp only [joinWithSpace] at hzl ⊢
      rw [List.append_cons, List.getLast?_append, hw]
      rw [hw] at hzl
      exact hzl

theorem dropWhile_replicate_space (k : Nat) (l : List Char) :
    List.dropWhile pySpace (List.replicate k ' ' ++ l) =
      List.dropWhile pySpace l := by
  induction k with
  | zero => rfl
  | succ k ih =>
    simpa [List.replicate_succ,
      List.dropWhile_cons_of_pos (by decide : pySpace ' ' = true)] using ih

theorem pyStrip_pad (jd : List Char) (k : Nat)
    (hh : ∀ c, jd.head? = some c → pySpace c = false)
    (hl : ∀ c, jd.getLast? = some c → pySpace c = false) :
    pyStrip (jd ++ List.replicate k ' ') = jd := by
  cases jd with
  | nil =>
    have h1 : List.dropWhile pySpace (List.replicate k ' ') = [] := by
      simpa using dropWhile_replicate_space k []
    simp [pyStrip, h1]
  | cons c l =>
    have hc : pySpace c = false := hh c rfl
    have h1 : List.dropWhile pySpace ((c :: l) ++ List.replicate k ' ') =
        (c :: l) ++ List.replicate k ' ' := by
      rw [List.cons_append, List.dropWhile_cons_of_neg (by simp [hc])]
    unfold pyStrip
    rw [h1, List.reverse_append, List.reverse_replicate,
      dropWhile_replicate_space]
    obtain ⟨c2, hc2⟩ := Option.isSome_iff_exists.mp
      (List.getLast?_isSome.mpr (by simp : (c :: l) ≠ []))
    have hc2s : pySpace c2 = false := hl c2 hc2
    have hrev : (c :: l).reverse.head? = some c2 := by
      rw [List.head?_reverse]; exact hc2
    cases hr : (c :: l).reverse with
    | nil => simp at hr
    | cons d rest =>
      rw [hr] at hrev
      injection hrev with hd
      subst hd
      rw [List.dropWhile_cons_of_neg (by simp [hc2s]), ← hr,
        List.reverse_reverse]

theorem sliceBytes_pack_tags (h : TaskHeader) (l : List Nat) :
    sliceBytes (packHeader h ++ l) 8 128 = fit128 h.tags := by
  simp only [packHeader, sliceBytes, List.append_assoc]
  rw [← List.append_assoc]
  rw [List.drop_left'
    (show ((beBytes 4 h.version ++ beBytes 4 h.status)).length = 8 from by
      simp [beBytes_length])]
  exact List.take_left' (fit128_length h.tags)

theorem setTags_eq (f : TFile) (tg : List String)
    (hwf : f.header.WF) (h128 : (tagFieldBytes tg).length = 128)
    (h256 : ∀ b ∈ tagFieldBytes tg, b < 256) :
    TaskFile.setTags f tg =
      ⟨{ f.header with tags := tagFieldBytes tg }, f.body⟩ := by
  have hne : tagFieldBytes tg ≠ [] := by
    intro h0; rw [h0] at h128; simp at h128
  have hwrite : writeAt 8 (tagFieldBytes tg) (fileBytes f) =
      packHeader { f.header with tags := tagFieldBytes tg } ++ f.body := by
    simp only [fileBytes, packHeader, List.append_assoc]
    rw [fit128_eq_self _ h128]
    exact writeAt_chunk2 _ _ _ _ _ 8 (by simp [beBytes_length])
      (by rw [fit128_length, h128]) hne
  have hwf2 : ({ f.header with tags := tagFieldBytes tg } : TaskHeader).WF := by
    obtain ⟨a1, a2, _, _, a5, a6, a7, a8, a9, a10, a11, a12,
      a13, a14, a15, a16, a17, a18⟩ := hwf
    exact ⟨a1, a2, h128, h256, a5, a6, a7, a8, a9, a10, a11, a12,
      a13, a14, a15, a16, a17, a18⟩
  simp only [TaskFile.setTags, headerSize]
  rw [hwrite]
  rw [List.take_left' (packHeader_length _), List.drop_left' (packHeader_length _)]
  rw [unpackHeader_packHeader _ hwf2]

/-- Claim C10 (amended): for every well-formed record and every list of
non-empty, whitespace-free, ASCII tag strings whose sorted space-joined
encoding is at most 128 bytes, setting the tags and reading them back
returns exactly the space-joined lexicographically-sorted tag string with
the padding stripped, and the setter modifies no header field other than
tags and leaves the section bytes unchanged.  (For non-ASCII tags the
claim as stated fails: see the overflow counterexample.) -/
theorem taskfile_tags_roundtrip_ascii (f : TFile) (tg : List String)
    (hwf : f.header.WF)
    (htag : ∀ t ∈ tg, t.data ≠ [] ∧ ∀ c ∈ t.data,
      c.toNat < 0x80 ∧ pySpace c = false)
    (hjoin : (utf8Encode (joinTags tg)).length ≤ 128) :
    TaskFile.getTags (TaskFile.setTags f tg) =
      some (String.mk (joinTags tg)) ∧
    (TaskFile.setTags f tg).header =
      { f.header with tags := tagFieldBytes tg } ∧
    (TaskFile.setTags f tg).body = f.body := by
  have hLmem : ∀ x ∈ (sortStrings tg).map String.data,
      x ≠ [] ∧ ∀ c ∈ x, c.toNat < 0x80 ∧ pySpace c = false := by
    intro x hx
    obtain ⟨t, ht, rfl⟩ := List.mem_map.mp hx
    simp only [sortStrings] at ht
    exact htag t ((List.mem_insertionSort _).mp ht)
  have hjascii : ∀ c ∈ joinTags tg, c.toNat < 0x80 := by
    intro c hc
    rcases mem_joinWithSpace ((sortStrings tg).map String.data) c hc with
      ⟨x, hx, hcx⟩ | rfl
    · exact ((hLmem x hx).2 c hcx).1
    · decide
  have hjlen : (joinTags tg).length ≤ 128 := by
    rw [utf8Encode_ascii (joinTags tg) hjascii, List.length_map] at hjoin
    exact hjoin
  have hpad : ljustChars (joinTags tg) 128 =
      joinTags tg ++ List.replicate (128 - (joinTags tg).length) ' ' := rfl
  have hpadascii : ∀ c ∈ ljustChars (joinTags tg) 128, c.toNat < 0x80 := by
    intro c hc
    rw [hpad] at hc
    rcases List.mem_append.mp hc with h1 | h1
    · exact hjascii c h1
    · rw [List.eq_of_mem_replicate h1]; decide
  have hpadlen : (ljustChars (joinTags tg) 128).length = 128 := by
    simp only [ljustChars, List.length_append, List.length_replicate]
    omega
  have hencpad : tagFieldBytes tg =
      (ljustChars (joinTags tg) 128).map Char.toNat := by
    simp only [tagFieldBytes]
    exact utf8Encode_ascii _ hpadascii
  have h128 : (tagFieldBytes tg).length = 128 := by
    rw [hencpad, List.length_map, hpadlen]
  have h256 : ∀ b ∈ tagFieldBytes tg, b < 256 := by
    intro b hb
    rw [hencpad] at hb
    obtain ⟨c, hc, rfl⟩ := List.mem_map.mp hb
    have := hpadascii c hc
    omega
  have hh : ∀ c, (joinTags tg).head? = some c → pySpace c = false := by
    intro c hc
    cases hL : (sortStrings tg).map String.data with
    | nil =>
      rw [show joinTags tg =
        joinWithSpace ((sortStrings tg).map String.data) from rfl, hL] at hc
      simp [joinWithSpace] at hc
    | cons x xs =>
      have hx : x ∈ (sortStrings tg).map String.data := by
        rw [hL]; exact List.mem_cons_self x xs
      have hx2 := hLmem x hx
      rw [show joinTags tg =
        joinWithSpace ((sortStrings tg).map String.data) from rfl, hL,
        joinWithSpace_head? x xs hx2.1] at hc
      exact (hx2.2 c (List.mem_of_mem_head? (Option.mem_def.mpr hc))).2
  have hlast : ∀ c, (joinTags tg).getLast? = some c → pySpace c = false := by
    intro c hc
    cases hL : (sortStrings tg).map String.data with
    | nil =>
      rw [show joinTags tg =
        joinWithSpace ((sortStrings tg).map String.data) from rfl, hL] at hc
      simp [joinWithSpace] at hc
    | cons x xs =>
      obtain ⟨y, hy, hyl⟩ := joinWithSpace_getLast? (x :: xs)
        (fun a ha => (hLmem a (by rw [hL]; exact ha)).1) (by simp)
      rw [show joinTags tg =
        joinWithSpace ((sortStrings tg).map String.data) from rfl, hL, hyl] at hc
      have hy2 : y ∈ (sortStrings tg).map String.data := by rw [hL]; exact hy
      exact ((hLmem y hy2).2 c
        (List.mem_of_mem_getLast? (Option.mem_def.mpr hc))).2
  have hset := setTags_eq f tg hwf h128 h256
  refine ⟨?_, by rw [hset], by rw [hset]⟩
  rw [hset]
  simp only [TaskFile.getTags, fileBytes]
  rw [sliceBytes_pack_tags]
  rw [show ({ f.header with tags := tagFieldBytes tg } : TaskHeader).tags =
    tagFieldBytes tg from rfl]
  rw [fit128_eq_self _ h128]
  rw [show tagFieldBytes tg =
    utf8Encode (ljustChars (joinTags tg) 128) from rfl]
  rw [utf8Decode_encode_ascii _ hpadascii]
  simp only [Option.map_some']
  rw [hpad, pyStrip_pad (joinTags tg) _ hh hlast]

set_option maxRecDepth 8192 in
/-- Witness for C10 at a concrete record and ASCII tags. -/
theorem taskfile_tags_roundtrip_ascii_witness :
    TaskFile.getTags (TaskFile.setTags exFile ["beta", "alpha"]) =
      some (String.mk (joinTags ["beta", "alpha"])) ∧
    (TaskFile.setTags exFile ["beta", "alpha"]).header =
      { exHeader with tags := tagFieldBytes ["beta", "alpha"] } ∧
    (TaskFile.setTags exFile ["beta", "alpha"]).body = exFile.body :=
  taskfile_tags_roundtrip_ascii exFile ["beta", "alpha"]
    (by decide) (by decide) (by decide)

set_option maxRecDepth 8192 in
/-- Counterexample to C10 as stated: the single tag "ββ" is non-empty and
whitespace-free and its space-joined encoding is only 4 bytes, yet
setting it modifies the new_time header field: str.ljust pads to 128
CHARACTERS, which UTF-8 encode to 130 bytes, and _set_tags's raw write at
offset 8 overruns the 128-byte tags field into the first timestamp. -/
theorem taskfile_tags_multibyte_overflow :
    ("ββ" : String).data ≠ [] ∧
    (∀ c ∈ ("ββ" : String).data, pySpace c = false) ∧
    (utf8Encode (joinTags ["ββ"])).length ≤ 128 ∧
    (TaskFile.setTags exFile ["ββ"]).header.new_time ≠
      exFile.header.new_time := by
  decide
